import Mathlib

/-!
Verification development for the fork-activation and configuration-compatibility
engine of the `params` package (ChainConfig, isForked, CheckConfigForkOrder,
CheckCompatible, newCompatError).

Modelling conventions:
* Go `*big.Int` fields (nil-able scheduled fork values) become `Option Int`.
* Go `uint64` heights become `Nat`; where the code converts a `big.Int` to
  `uint64` (`rew.Uint64() - 1` in `newCompatError`) the conversion keeps the
  low 64 bits, written with an explicit `% 2 ^ 64`.
* The unbounded `for` loop of `CheckCompatible` is written with explicit fuel;
  the development proves that `height + 2` units of fuel always suffice, which
  is the termination argument for the Go loop.
-/

/-- ChainConfig is the core config which determines the blockchain settings.
Field-for-field translation of the Go struct; `EIP150Hash` (a 32-byte hash,
never consulted by the compatibility logic) is modelled as a `Nat`. -/
structure ChainConfig where
  ChainID : Option Int
  HomesteadBlock : Option Int
  DAOForkBlock : Option Int
  DAOForkSupport : Bool
  EIP150Block : Option Int
  EIP150Hash : Nat
  EIP155Block : Option Int
  EIP158Block : Option Int
  ByzantiumBlock : Option Int
  ConstantinopleBlock : Option Int
  PetersburgBlock : Option Int
  IstanbulBlock : Option Int
  MuirGlacierBlock : Option Int
  ApricotPhase1BlockTimestamp : Option Int
  ApricotPhase2BlockTimestamp : Option Int
  ApricotPhase3BlockTimestamp : Option Int
  ApricotPhase4BlockTimestamp : Option Int
  deriving Repr, DecidableEq

/-- isForked returns whether a fork scheduled at block s is active at the
given head block.  Returns false when either side is nil. -/
def isForked (s head : Option Int) : Bool :=
  match s, head with
  | some sv, some hv => decide (sv ≤ hv)
  | _, _ => false

/-- configNumEqual: two nil values are equal; nil differs from any value;
otherwise numeric comparison. -/
def configNumEqual (x y : Option Int) : Bool :=
  match x, y with
  | none, none => true
  | some a, some b => a == b
  | _, _ => false

/-- isForkIncompatible returns true if a fork scheduled at s1 cannot be
rescheduled to block s2 because head is already past the fork. -/
def isForkIncompatible (s1 s2 head : Option Int) : Bool :=
  (isForked s1 head || isForked s2 head) && !configNumEqual s1 s2

/-- IsDAOFork returns whether num is either equal to the DAO fork block or greater. -/
def ChainConfig.IsDAOFork (c : ChainConfig) (num : Option Int) : Bool :=
  isForked c.DAOForkBlock num

/-- IsEIP158 returns whether num is either equal to the EIP158 fork block or greater. -/
def ChainConfig.IsEIP158 (c : ChainConfig) (num : Option Int) : Bool :=
  isForked c.EIP158Block num

/-- ConfigCompatError is raised if the locally-stored blockchain is initialised
with a ChainConfig that would alter the past.  `RewindTo` is a Go `uint64`. -/
structure ConfigCompatError where
  What : String
  StoredConfig : Option Int
  NewConfig : Option Int
  RewindTo : Nat
  deriving Repr, DecidableEq

/-- The `switch` of `newCompatError` choosing the block the rewind is computed
from: the stored block when it is present and lower, otherwise the new block. -/
def newCompatRewindBlock (storedblock newblock : Option Int) : Option Int :=
  match storedblock, newblock with
  | none, _ => newblock
  | some s, none => some s
  | some s, some n => if s < n then some s else some n

/-- The `RewindTo` assignment of `newCompatError`: zero unless the chosen block
is present and positive, in which case `rew.Uint64() - 1` (uint64 arithmetic,
hence the explicit low-64-bit reduction). -/
def rewindToOfBlock (rew : Option Int) : Nat :=
  match rew with
  | some r => if 0 < r then (r - 1).toNat % 2 ^ 64 else 0
  | none => 0

/-- newCompatError builds the ConfigCompatError for a diverging fork. -/
def newCompatError (what : String) (storedblock newblock : Option Int) : ConfigCompatError :=
  { What := what
    StoredConfig := storedblock
    NewConfig := newblock
    RewindTo := rewindToOfBlock (newCompatRewindBlock storedblock newblock) }

/-- checkCompatible: the single-pass comparison of two schedules at a reference
head, returning the first mismatch in canonical check order. -/
def checkCompatible (c newcfg : ChainConfig) (head : Option Int) : Option ConfigCompatError :=
  if isForkIncompatible c.HomesteadBlock newcfg.HomesteadBlock head then
    some (newCompatError "Homestead fork block" c.HomesteadBlock newcfg.HomesteadBlock)
  else if isForkIncompatible c.DAOForkBlock newcfg.DAOForkBlock head then
    some (newCompatError "DAO fork block" c.DAOForkBlock newcfg.DAOForkBlock)
  else if c.IsDAOFork head && (c.DAOForkSupport != newcfg.DAOForkSupport) then
    some (newCompatError "DAO fork support flag" c.DAOForkBlock newcfg.DAOForkBlock)
  else if isForkIncompatible c.EIP150Block newcfg.EIP150Block head then
    some (newCompatError "EIP150 fork block" c.EIP150Block newcfg.EIP150Block)
  else if isForkIncompatible c.EIP155Block newcfg.EIP155Block head then
    some (newCompatError "EIP155 fork block" c.EIP155Block newcfg.EIP155Block)
  else if isForkIncompatible c.EIP158Block newcfg.EIP158Block head then
    some (newCompatError "EIP158 fork block" c.EIP158Block newcfg.EIP158Block)
  else if c.IsEIP158 head && !configNumEqual c.ChainID newcfg.ChainID then
    some (newCompatError "EIP158 chain ID" c.EIP158Block newcfg.EIP158Block)
  else if isForkIncompatible c.ByzantiumBlock newcfg.ByzantiumBlock head then
    some (newCompatError "Byzantium fork block" c.ByzantiumBlock newcfg.ByzantiumBlock)
  else if isForkIncompatible c.ConstantinopleBlock newcfg.ConstantinopleBlock head then
    some (newCompatError "Constantinople fork block" c.ConstantinopleBlock newcfg.ConstantinopleBlock)
  else if isForkIncompatible c.PetersburgBlock newcfg.PetersburgBlock head &&
          isForkIncompatible c.ConstantinopleBlock newcfg.PetersburgBlock head then
    some (newCompatError "Petersburg fork block" c.PetersburgBlock newcfg.PetersburgBlock)
  else if isForkIncompatible c.IstanbulBlock newcfg.IstanbulBlock head then
    some (newCompatError "Istanbul fork block" c.IstanbulBlock newcfg.IstanbulBlock)
  else if isForkIncompatible c.MuirGlacierBlock newcfg.MuirGlacierBlock head then
    some (newCompatError "Muir Glacier fork block" c.MuirGlacierBlock newcfg.MuirGlacierBlock)
  else none

/-- The `for` loop of `CheckCompatible`, with explicit fuel.  Exhausted fuel
returns `lasterr`, exactly like the loop `break`; the development proves that
`height + 2` fuel makes the exhaustion case unreachable. -/
def loopCheckCompatible (c newcfg : ChainConfig) (fuel bhead : Nat)
    (lasterr : Option ConfigCompatError) : Option ConfigCompatError :=
  match fuel with
  | 0 => lasterr
  | fuel' + 1 =>
    match checkCompatible c newcfg (some (bhead : Int)), lasterr with
    | none, _ => lasterr
    | some err, some l =>
      if err.RewindTo = l.RewindTo then some l
      else loopCheckCompatible c newcfg fuel' err.RewindTo (some err)
    | some err, none => loopCheckCompatible c newcfg fuel' err.RewindTo (some err)

/-- CheckCompatible checks whether scheduled fork transitions have been
imported with a mismatching chain configuration, iterating checkCompatible to
find the lowest conflict. -/
def ChainConfig.CheckCompatible (c newcfg : ChainConfig) (height : Nat) :
    Option ConfigCompatError :=
  loopCheckCompatible c newcfg (height + 2) height none

theorem configNumEqual_self (x : Option Int) : configNumEqual x x = true := by
  cases x with
  | none => rfl
  | some a => simp [configNumEqual]

theorem isForkIncompatible_self (s head : Option Int) :
    isForkIncompatible s s head = false := by
  simp [isForkIncompatible, configNumEqual_self]

theorem checkCompatible_self (c : ChainConfig) (head : Option Int) :
    checkCompatible c c head = none := by
  simp [checkCompatible, isForkIncompatible_self, configNumEqual_self,
    bne_self_eq_false]

theorem loop_succ_none {c n : ChainConfig} {b : Nat} (f : Nat)
    (l : Option ConfigCompatError)
    (h : checkCompatible c n (some (b : Int)) = none) :
    loopCheckCompatible c n (f + 1) b l = l := by
  simp only [loopCheckCompatible, h]

theorem loop_succ_cont_none {c n : ChainConfig} {b : Nat} {err : ConfigCompatError}
    (f : Nat) (h : checkCompatible c n (some (b : Int)) = some err) :
    loopCheckCompatible c n (f + 1) b none =
      loopCheckCompatible c n f err.RewindTo (some err) := by
  simp only [loopCheckCompatible, h]

theorem loop_succ_break {c n : ChainConfig} {b : Nat} {err l0 : ConfigCompatError}
    (f : Nat) (h : checkCompatible c n (some (b : Int)) = some err)
    (heq : err.RewindTo = l0.RewindTo) :
    loopCheckCompatible c n (f + 1) b (some l0) = some l0 := by
  simp only [loopCheckCompatible, h]
  rw [if_pos heq]

theorem loop_succ_cont_some {c n : ChainConfig} {b : Nat} {err l0 : ConfigCompatError}
    (f : Nat) (h : checkCompatible c n (some (b : Int)) = some err)
    (hne : err.RewindTo ≠ l0.RewindTo) :
    loopCheckCompatible c n (f + 1) b (some l0) =
      loopCheckCompatible c n f err.RewindTo (some err) := by
  simp only [loopCheckCompatible, h]
  rw [if_neg hne]

/-- C4: isForked(s, ref) is false when either the fork value or the reference
point is absent, and otherwise is true exactly when s is at most ref. -/
theorem c4_theorem :
    (∀ r : Option Int, isForked none r = false) ∧
    (∀ s : Option Int, isForked s none = false) ∧
    (∀ a b : Int, isForked (some a) (some b) = decide (a ≤ b)) := by
  refine ⟨fun r => rfl, fun s => ?_, fun a b => rfl⟩
  cases s <;> rfl

/-- C5: a schedule is always compatible with itself: CheckCompatible of a
config against itself returns no ConfigCompatError at any height. -/
theorem c5_theorem (c : ChainConfig) (height : Nat) :
    c.CheckCompatible c height = none := by
  show loopCheckCompatible c c (height + 2) height none = none
  exact loop_succ_none (height + 1) none (checkCompatible_self c _)

theorem forked_or_of_incompatible {s1 s2 head : Option Int}
    (h : isForkIncompatible s1 s2 head = true) :
    (isForked s1 head || isForked s2 head) = true := by
  simp only [isForkIncompatible, Bool.and_eq_true] at h
  exact h.1

theorem newCompatError_RewindTo (w : String) (s1 s2 : Option Int) :
    (newCompatError w s1 s2).RewindTo = rewindToOfBlock (newCompatRewindBlock s1 s2) :=
  rfl

theorem rewindToOfBlock_some (r : Int) :
    rewindToOfBlock (some r) = if 0 < r then (r - 1).toNat % 2 ^ 64 else 0 :=
  rfl

theorem rewindToOfBlock_bound (r : Int) (bhead : Nat) (hb : bhead < 2 ^ 64)
    (hr : r ≤ (bhead : Int)) :
    rewindToOfBlock (some r) = 0 ∨ rewindToOfBlock (some r) < bhead := by
  rw [rewindToOfBlock_some]
  split_ifs with h0
  · right
    have h1 : (r - 1).toNat % 2 ^ 64 = (r - 1).toNat := Nat.mod_eq_of_lt (by omega)
    omega
  · left
    rfl

/-- Whenever one of the two scheduled blocks is already reached at a head below
2^64, the error built from them rewinds to zero or strictly below the head. -/
theorem newCompatError_rewindTo_bound (w : String) (s1 s2 : Option Int) (bhead : Nat)
    (hb : bhead < 2 ^ 64)
    (hf : (isForked s1 (some (bhead : Int)) || isForked s2 (some (bhead : Int))) = true) :
    (newCompatError w s1 s2).RewindTo = 0 ∨ (newCompatError w s1 s2).RewindTo < bhead := by
  rw [newCompatError_RewindTo]
  rcases s1 with _ | a
  · rcases s2 with _ | b
    · simp [isForked] at hf
    · have hbb : b ≤ (bhead : Int) := by
        simpa [isForked] using hf
      exact rewindToOfBlock_bound b bhead hb hbb
  · rcases s2 with _ | b
    · have haa : a ≤ (bhead : Int) := by
        simpa [isForked] using hf
      exact rewindToOfBlock_bound a bhead hb haa
    · have hab : a ≤ (bhead : Int) ∨ b ≤ (bhead : Int) := by
        simpa [isForked] using hf
      by_cases hlt : a < b
      · have hrw : newCompatRewindBlock (some a) (some b) = some a := by
          simp [newCompatRewindBlock, if_pos hlt]
        rw [hrw]
        exact rewindToOfBlock_bound a bhead hb (by omega)
      · have hrw : newCompatRewindBlock (some a) (some b) = some b := by
          simp [newCompatRewindBlock, if_neg hlt]
        rw [hrw]
        exact rewindToOfBlock_bound b bhead hb (by omega)

set_option maxHeartbeats 1000000 in
/-- Any error produced by a single checkCompatible pass at a head below 2^64
rewinds to zero or strictly below that head. -/
theorem checkCompatible_rewindTo_bound (c n : ChainConfig) (bhead : Nat)
    (hb : bhead < 2 ^ 64) (e : ConfigCompatError)
    (h : checkCompatible c n (some (bhead : Int)) = some e) :
    e.RewindTo = 0 ∨ e.RewindTo < bhead := by
  unfold checkCompatible at h
  by_cases h1 : isForkIncompatible c.HomesteadBlock n.HomesteadBlock (some (bhead : Int)) = true
  · rw [if_pos h1, Option.some_inj] at h
    subst h
    exact newCompatError_rewindTo_bound _ _ _ bhead hb (forked_or_of_incompatible h1)
  rw [if_neg h1] at h
  by_cases h2 : isForkIncompatible c.DAOForkBlock n.DAOForkBlock (some (bhead : Int)) = true
  · rw [if_pos h2, Option.some_inj] at h
    subst h
    exact newCompatError_rewindTo_bound _ _ _ bhead hb (forked_or_of_incompatible h2)
  rw [if_neg h2] at h
  by_cases h3 : (c.IsDAOFork (some (bhead : Int)) && (c.DAOForkSupport != n.DAOForkSupport)) = true
  · rw [if_pos h3, Option.some_inj] at h
    subst h
    have hd : isForked c.DAOForkBlock (some (bhead : Int)) = true := by
      simp only [ChainConfig.IsDAOFork, Bool.and_eq_true] at h3
      exact h3.1
    exact newCompatError_rewindTo_bound _ _ _ bhead hb (by rw [hd]; rfl)
  rw [if_neg h3] at h
  by_cases h4 : isForkIncompatible c.EIP150Block n.EIP150Block (some (bhead : Int)) = true
  · rw [if_pos h4, Option.some_inj] at h
    subst h
    exact newCompatError_rewindTo_bound _ _ _ bhead hb (forked_or_of_incompatible h4)
  rw [if_neg h4] at h
  by_cases h5 : isForkIncompatible c.EIP155Block n.EIP155Block (some (bhead : Int)) = true
  · rw [if_pos h5, Option.some_inj] at h
    subst h
    exact newCompatError_rewindTo_bound _ _ _ bhead hb (forked_or_of_incompatible h5)
  rw [if_neg h5] at h
  by_cases h6 : isForkIncompatible c.EIP158Block n.EIP158Block (some (bhead : Int)) = true
  · rw [if_pos h6, Option.some_inj] at h
    subst h
    exact newCompatError_rewindTo_bound _ _ _ bhead hb (forked_or_of_incompatible h6)
  rw [if_neg h6] at h
  by_cases h7 : (c.IsEIP158 (some (bhead : Int)) && !configNumEqual c.ChainID n.ChainID) = true
  · rw [if_pos h7, Option.some_inj] at h
    subst h
    have hd : isForked c.EIP158Block (some (bhead : Int)) = true := by
      simp only [ChainConfig.IsEIP158, Bool.and_eq_true] at h7
      exact h7.1
    exact newCompatError_rewindTo_bound _ _ _ bhead hb (by rw [hd]; rfl)
  rw [if_neg h7] at h
  by_cases h8 : isForkIncompatible c.ByzantiumBlock n.ByzantiumBlock (some (bhead : Int)) = true
  · rw [if_pos h8, Option.some_inj] at h
    subst h
    exact newCompatError_rewindTo_bound _ _ _ bhead hb (forked_or_of_incompatible h8)
  rw [if_neg h8] at h
  by_cases h9 : isForkIncompatible c.ConstantinopleBlock n.ConstantinopleBlock (some (bhead : Int)) = true
  · rw [if_pos h9, Option.some_inj] at h
    subst h
    exact newCompatError_rewindTo_bound _ _ _ bhead hb (forked_or_of_incompatible h9)
  rw [if_neg h9] at h
  by_cases h10 : (isForkIncompatible c.PetersburgBlock n.PetersburgBlock (some (bhead : Int)) &&
      isForkIncompatible c.ConstantinopleBlock n.PetersburgBlock (some (bhead : Int))) = true
  · rw [if_pos h10, Option.some_inj] at h
    subst h
    have hp : isForkIncompatible c.PetersburgBlock n.PetersburgBlock (some (bhead : Int)) = true := by
      rw [Bool.and_eq_true] at h10
      exact h10.1
    exact newCompatError_rewindTo_bound _ _ _ bhead hb (forked_or_of_incompatible hp)
  rw [if_neg h10] at h
  by_cases h11 : isForkIncompatible c.IstanbulBlock n.IstanbulBlock (some (bhead : Int)) = true
  · rw [if_pos h11, Option.some_inj] at h
    subst h
    exact newCompatError_rewindTo_bound _ _ _ bhead hb (forked_or_of_incompatible h11)
  rw [if_neg h11] at h
  by_cases h12 : isForkIncompatible c.MuirGlacierBlock n.MuirGlacierBlock (some (bhead : Int)) = true
  · rw [if_pos h12, Option.some_inj] at h
    subst h
    exact newCompatError_rewindTo_bound _ _ _ bhead hb (forked_or_of_incompatible h12)
  rw [if_neg h12] at h
  exact Option.noConfusion h

/-- At head zero with a last error already rewinding to zero, the loop is at a
fixpoint: it returns that error whatever positive fuel remains. -/
theorem loop_zero_fix (c n : ChainConfig) (f : Nat) (err : ConfigCompatError)
    (hf : 1 ≤ f) (h0 : err.RewindTo = 0) :
    loopCheckCompatible c n f 0 (some err) = some err := by
  obtain ⟨f', rfl⟩ : ∃ k, f = k + 1 := ⟨f - 1, by omega⟩
  cases hcc : checkCompatible c n (some ((0 : Nat) : Int)) with
  | none => exact loop_succ_none f' (some err) hcc
  | some err2 =>
    have hb2 := checkCompatible_rewindTo_bound c n 0 (by norm_num) err2 hcc
    have h2 : err2.RewindTo = 0 := by omega
    exact loop_succ_break f' hcc (by rw [h2, h0])

/-- Fuel irrelevance: with at least bhead + 2 units of fuel the loop result no
longer depends on the fuel.  The invariant ties the pending last error to the
current search head, exactly as the Go loop maintains it. -/
theorem loop_fuel_stable (c n : ChainConfig) :
    ∀ bhead : Nat, bhead < 2 ^ 64 →
    ∀ (f1 f2 : Nat) (lasterr : Option ConfigCompatError),
      (∀ l0, lasterr = some l0 → l0.RewindTo = bhead) →
      bhead + 2 ≤ f1 → bhead + 2 ≤ f2 →
      loopCheckCompatible c n f1 bhead lasterr = loopCheckCompatible c n f2 bhead lasterr := by
  intro bhead
  induction bhead using Nat.strong_induction_on with
  | _ bhead IH =>
    intro hb f1 f2 lasterr hinv hf1 hf2
    obtain ⟨f1', rfl⟩ : ∃ k, f1 = k + 1 := ⟨f1 - 1, by omega⟩
    obtain ⟨f2', rfl⟩ : ∃ k, f2 = k + 1 := ⟨f2 - 1, by omega⟩
    cases hcc : checkCompatible c n (some (bhead : Int)) with
    | none => rw [loop_succ_none f1' lasterr hcc, loop_succ_none f2' lasterr hcc]
    | some err =>
      have hbound := checkCompatible_rewindTo_bound c n bhead hb err hcc
      cases lasterr with
      | some l0 =>
        have hl0 : l0.RewindTo = bhead := hinv l0 rfl
        by_cases heq : err.RewindTo = l0.RewindTo
        · rw [loop_succ_break f1' hcc heq, loop_succ_break f2' hcc heq]
        · rw [loop_succ_cont_some f1' hcc heq, loop_succ_cont_some f2' hcc heq]
          have hlt : err.RewindTo < bhead := by omega
          exact IH err.RewindTo hlt (by omega) f1' f2' (some err)
            (fun l1 hl1 => by rw [Option.some_inj] at hl1; rw [hl1]) (by omega) (by omega)
      | none =>
        rw [loop_succ_cont_none f1' hcc, loop_succ_cont_none f2' hcc]
        by_cases hz : bhead = 0
        · subst hz
          have h0 : err.RewindTo = 0 := by omega
          rw [h0, loop_zero_fix c n f1' err (by omega) h0,
            loop_zero_fix c n f2' err (by omega) h0]
        · have hlt : err.RewindTo < bhead := by omega
          exact IH err.RewindTo hlt (by omega) f1' f2' (some err)
            (fun l1 hl1 => by rw [Option.some_inj] at hl1; rw [hl1]) (by omega) (by omega)

/-- Every error the loop can return rewinds to zero or strictly below the
starting height, provided every pending error already does. -/
theorem loop_rewindTo_bound (c n : ChainConfig) (height : Nat) (hh : height < 2 ^ 64) :
    ∀ (fuel bhead : Nat) (lasterr : Option ConfigCompatError),
      bhead ≤ height →
      (∀ l0, lasterr = some l0 → l0.RewindTo = 0 ∨ l0.RewindTo < height) →
      ∀ e, loopCheckCompatible c n fuel bhead lasterr = some e →
        e.RewindTo = 0 ∨ e.RewindTo < height := by
  intro fuel
  induction fuel with
  | zero =>
    intro bhead lasterr hble hinv e h
    exact hinv e h
  | succ f IHf =>
    intro bhead lasterr hble hinv e h
    cases hcc : checkCompatible c n (some (bhead : Int)) with
    | none =>
      rw [loop_succ_none f lasterr hcc] at h
      exact hinv e h
    | some err =>
      have hbd := checkCompatible_rewindTo_bound c n bhead (by omega) err hcc
      have herr : err.RewindTo = 0 ∨ err.RewindTo < height := by omega
      cases lasterr with
      | none =>
        rw [loop_succ_cont_none f hcc] at h
        exact IHf err.RewindTo (some err) (by omega)
          (fun l0 hl0 => by rw [Option.some_inj] at hl0; subst hl0; exact herr) e h
      | some l0 =>
        by_cases heq : err.RewindTo = l0.RewindTo
        · rw [loop_succ_break f hcc heq] at h
          exact hinv e h
        · rw [loop_succ_cont_some f hcc heq] at h
          exact IHf err.RewindTo (some err) (by omega)
            (fun l1 hl1 => by rw [Option.some_inj] at hl1; subst hl1; exact herr) e h

/-- If a single pass at the starting height yields an error, and a second pass
at that error's rewind target yields an error with the same rewind target, the
iteration stabilises and CheckCompatible returns the first error. -/
theorem CheckCompatible_of_fix (c n : ChainConfig) (height : Nat)
    (err err2 : ConfigCompatError)
    (h1 : checkCompatible c n (some (height : Int)) = some err)
    (h2 : checkCompatible c n (some ((err.RewindTo : Nat) : Int)) = some err2)
    (h3 : err2.RewindTo = err.RewindTo) :
    c.CheckCompatible n height = some err := by
  show loopCheckCompatible c n (height + 1 + 1) height none = some err
  rw [loop_succ_cont_none (height + 1) h1]
  exact loop_succ_break height h2 h3

/-- A concrete schedule with every fork enabled from genesis (chain ID 1). -/
def allZeroConfig : ChainConfig :=
  { ChainID := some 1
    HomesteadBlock := some 0
    DAOForkBlock := some 0
    DAOForkSupport := true
    EIP150Block := some 0
    EIP150Hash := 0
    EIP155Block := some 0
    EIP158Block := some 0
    ByzantiumBlock := some 0
    ConstantinopleBlock := some 0
    PetersburgBlock := some 0
    IstanbulBlock := some 0
    MuirGlacierBlock := some 0
    ApricotPhase1BlockTimestamp := some 0
    ApricotPhase2BlockTimestamp := some 0
    ApricotPhase3BlockTimestamp := some 0
    ApricotPhase4BlockTimestamp := some 0 }

/-- C9: the iterative rewind search of CheckCompatible terminates: beyond
height + 2 iterations the loop result never changes, so the Go loop exits
after finitely many iterations with exactly this value. -/
theorem c9_theorem (c n : ChainConfig) (height fuel : Nat) (hh : height < 2 ^ 64)
    (hf : height + 2 ≤ fuel) :
    loopCheckCompatible c n fuel height none = c.CheckCompatible n height :=
  loop_fuel_stable c n height hh fuel (height + 2) none
    (fun l0 hl0 => Option.noConfusion hl0) hf (by omega)

/-- C9 witness: at height 10 with 50 units of fuel the loop already agrees
with CheckCompatible. -/
theorem c9_witness :
    loopCheckCompatible allZeroConfig { allZeroConfig with HomesteadBlock := some 5 } 50 10 none =
      ChainConfig.CheckCompatible allZeroConfig { allZeroConfig with HomesteadBlock := some 5 } 10 :=
  c9_theorem allZeroConfig { allZeroConfig with HomesteadBlock := some 5 } 10 50
    (by norm_num) (by norm_num)

/-- C10: whenever CheckCompatible returns an error, its RewindTo is zero or
strictly below the height the check was invoked at. -/
theorem c10_theorem (c n : ChainConfig) (height : Nat) (e : ConfigCompatError)
    (hh : height < 2 ^ 64) (h : c.CheckCompatible n height = some e) :
    e.RewindTo = 0 ∨ e.RewindTo < height :=
  loop_rewindTo_bound c n height hh (height + 2) height none le_rfl
    (fun l0 hl0 => Option.noConfusion hl0) e h

/-- C10 witness: the Homestead mismatch error reported at height 10 rewinds
to zero or below 10. -/
theorem c10_witness :
    ({ What := "Homestead fork block", StoredConfig := some 0, NewConfig := some 5,
       RewindTo := 0 } : ConfigCompatError).RewindTo = 0 ∨
    ({ What := "Homestead fork block", StoredConfig := some 0, NewConfig := some 5,
       RewindTo := 0 } : ConfigCompatError).RewindTo < 10 :=
  c10_theorem allZeroConfig { allZeroConfig with HomesteadBlock := some 5 } 10
    { What := "Homestead fork block", StoredConfig := some 0, NewConfig := some 5, RewindTo := 0 }
    (by norm_num) (by decide)

/-- C1 counterexample: with stored Homestead at 0, new Homestead at 5 and all
other fields equal, CheckCompatible at height 10 reports the Homestead
mismatch with RewindTo = 0, not 4: the claimed universal statement is false. -/
theorem c1_counterexample :
    ¬ (∀ (c : ChainConfig) (e : ConfigCompatError), c.HomesteadBlock = some 0 →
        c.CheckCompatible { c with HomesteadBlock := some 5 } 10 = some e →
        e.RewindTo = 4) := by
  intro hcl
  have h4 := hcl allZeroConfig
    { What := "Homestead fork block", StoredConfig := some 0, NewConfig := some 5, RewindTo := 0 }
    rfl (by decide)
  simp at h4

/-- C1 amended: with stored Homestead at 0, new Homestead at 5 and all other
fields equal, CheckCompatible at height 10 returns the non-nil Homestead
mismatch error, and its RewindTo is 0 (the lower scheduled value is 0, so the
rewind target clamps to 0). -/
theorem c1_theorem (c : ChainConfig) (h : c.HomesteadBlock = some 0) :
    c.CheckCompatible { c with HomesteadBlock := some 5 } 10 =
      some { What := "Homestead fork block", StoredConfig := some 0, NewConfig := some 5,
             RewindTo := 0 } := by
  have hstep : ∀ m : Nat,
      checkCompatible c { c with HomesteadBlock := some 5 } (some (m : Int)) =
        some { What := "Homestead fork block", StoredConfig := some 0, NewConfig := some 5,
               RewindTo := 0 } := by
    intro m
    have hcond : isForkIncompatible c.HomesteadBlock
        ({ c with HomesteadBlock := some 5 } : ChainConfig).HomesteadBlock
        (some (m : Int)) = true := by
      rw [h]
      show isForkIncompatible (some 0) (some 5) (some (m : Int)) = true
      simp [isForkIncompatible, isForked, configNumEqual]
    unfold checkCompatible
    rw [if_pos hcond, h]
    rfl
  exact CheckCompatible_of_fix c _ 10 _ _ (hstep 10) (hstep 0) rfl

/-- C1 witness: the amended statement at the concrete all-genesis schedule. -/
theorem c1_witness :
    ChainConfig.CheckCompatible allZeroConfig { allZeroConfig with HomesteadBlock := some 5 } 10 =
      some { What := "Homestead fork block", StoredConfig := some 0, NewConfig := some 5,
             RewindTo := 0 } :=
  c1_theorem allZeroConfig rfl

/-- The rewind value as the spec describes it: the lower of the stored and new
scheduled values, an absent stored value meaning the new value governs, and an
absent new value meaning the stored value governs.  Stated from the spec
wording, to be compared against the newCompatError code path. -/
def specChosenRewind (stored newv : Option Int) : Option Int :=
  match stored, newv with
  | none, nv => nv
  | some sv, none => some sv
  | some sv, some nv => some (min sv nv)

/-- C3: when the spec-chosen rewind value is v (below 2^64), the RewindTo
newCompatError stores is max(0, v - 1), written Int.toNat (v - 1); in
particular a chosen value of 0 yields RewindTo = 0. -/
theorem c3_theorem (w : String) (stored newv : Option Int) (v : Int)
    (hv : specChosenRewind stored newv = some v) (hb : v < 2 ^ 64) :
    (newCompatError w stored newv).RewindTo = (v - 1).toNat := by
  rw [newCompatError_RewindTo]
  rcases stored with _ | a
  · rcases newv with _ | b
    · exact Option.noConfusion hv
    · have hbv : b = v := by simpa [specChosenRewind] using hv
      subst hbv
      show rewindToOfBlock (some b) = (b - 1).toNat
      rw [rewindToOfBlock_some]
      split_ifs with h0
      · exact Nat.mod_eq_of_lt (by omega)
      · omega
  · rcases newv with _ | b
    · have hav : a = v := by simpa [specChosenRewind] using hv
      subst hav
      show rewindToOfBlock (some a) = (a - 1).toNat
      rw [rewindToOfBlock_some]
      split_ifs with h0
      · exact Nat.mod_eq_of_lt (by omega)
      · omega
    · have hmin : min a b = v := by simpa [specChosenRewind] using hv
      by_cases hlt : a < b
      · have hrw : newCompatRewindBlock (some a) (some b) = some a := by
          simp [newCompatRewindBlock, if_pos hlt]
        rw [hrw, rewindToOfBlock_some]
        have hav : a = v := by omega
        subst hav
        split_ifs with h0
        · exact Nat.mod_eq_of_lt (by omega)
        · omega
      · have hrw : newCompatRewindBlock (some a) (some b) = some b := by
          simp [newCompatRewindBlock, if_neg hlt]
        rw [hrw, rewindToOfBlock_some]
        have hbv : b = v := by omega
        subst hbv
        split_ifs with h0
        · exact Nat.mod_eq_of_lt (by omega)
        · omega

/-- C3 witness: stored 0 against new 5 chooses 0 and rewinds to
Int.toNat (0 - 1) = 0. -/
theorem c3_witness :
    (newCompatError "Homestead fork block" (some 0) (some 5)).RewindTo =
      ((0 : Int) - 1).toNat :=
  c3_theorem "Homestead fork block" (some 0) (some 5) 0 (by decide) (by norm_num)

/-- C6: stored Petersburg absent with Constantinople at 0, new config setting
Petersburg to 0 and all other fields equal: no mismatch at any height, because
the new Petersburg value matches the stored Constantinople value. -/
theorem c6_theorem (c : ChainConfig) (height : Nat)
    (hP : c.PetersburgBlock = none) (hC : c.ConstantinopleBlock = some 0) :
    c.CheckCompatible { c with PetersburgBlock := some 0 } height = none := by
  have hcc : checkCompatible c { c with PetersburgBlock := some 0 }
      (some (height : Int)) = none := by
    simp [checkCompatible, isForkIncompatible_self, configNumEqual_self,
      bne_self_eq_false, hC]
  show loopCheckCompatible c { c with PetersburgBlock := some 0 } (height + 1 + 1) height none = none
  exact loop_succ_none (height + 1) none hcc

/-- The all-genesis schedule with Petersburg left unset. -/
def petersburgUnsetConfig : ChainConfig :=
  { allZeroConfig with PetersburgBlock := none }

/-- C6 witness: the concrete Petersburg-unset schedule against itself with
Petersburg pinned to 0 is compatible at height 3. -/
theorem c6_witness :
    ChainConfig.CheckCompatible petersburgUnsetConfig
      { petersburgUnsetConfig with PetersburgBlock := some 0 } 3 = none :=
  c6_theorem petersburgUnsetConfig 3 rfl rfl

/-- C7: with stored EIP158 at 0 and chain ID 1 against the same schedule with
chain ID 2, CheckCompatible at height 100 returns the EIP158 chain ID
mismatch rewinding to 0; and with EIP158 inactive under the stored config at
the reference height, a chain ID change alone is never reported. -/
theorem c7_theorem :
    (∀ c : ChainConfig, c.EIP158Block = some 0 → c.ChainID = some 1 →
      c.CheckCompatible { c with ChainID := some 2 } 100 =
        some { What := "EIP158 chain ID", StoredConfig := some 0, NewConfig := some 0,
               RewindTo := 0 }) ∧
    (∀ (c : ChainConfig) (height : Nat) (newID : Option Int),
      isForked c.EIP158Block (some (height : Int)) = false →
      c.CheckCompatible { c with ChainID := newID } height = none) := by
  constructor
  · intro c h158 hid
    have hstep : ∀ m : Nat,
        checkCompatible c { c with ChainID := some 2 } (some (m : Int)) =
          some { What := "EIP158 chain ID", StoredConfig := some 0, NewConfig := some 0,
                 RewindTo := 0 } := by
      intro m
      simp [checkCompatible, isForkIncompatible_self, bne_self_eq_false,
        ChainConfig.IsEIP158, h158, hid, isForked, configNumEqual,
        newCompatError, newCompatRewindBlock, rewindToOfBlock]
    exact CheckCompatible_of_fix c _ 100 _ _ (hstep 100) (hstep 0) rfl
  · intro c height newID h158
    have hcc : checkCompatible c { c with ChainID := newID }
        (some (height : Int)) = none := by
      simp [checkCompatible, isForkIncompatible_self, bne_self_eq_false,
        ChainConfig.IsEIP158, h158]
    show loopCheckCompatible c { c with ChainID := newID } (height + 1 + 1) height none = none
    exact loop_succ_none (height + 1) none hcc

/-- The all-genesis schedule with EIP158 left unset. -/
def eip158UnsetConfig : ChainConfig :=
  { allZeroConfig with EIP158Block := none }

/-- C7 witness: the chain ID mismatch at height 100 on the all-genesis
schedule, and the absence of any report when EIP158 is unset. -/
theorem c7_witness :
    (ChainConfig.CheckCompatible allZeroConfig { allZeroConfig with ChainID := some 2 } 100 =
      some { What := "EIP158 chain ID", StoredConfig := some 0, NewConfig := some 0,
             RewindTo := 0 }) ∧
    ChainConfig.CheckCompatible eip158UnsetConfig
      { eip158UnsetConfig with ChainID := some 9 } 5 = none :=
  ⟨c7_theorem.1 allZeroConfig rfl rfl, c7_theorem.2 eip158UnsetConfig 5 (some 9) rfl⟩

/-- One entry of the fork table CheckConfigForkOrder walks: the Go struct
`fork{name, block, optional}`. -/
structure Fork where
  name : String
  block : Option Int
  optional : Bool
  deriving Repr, DecidableEq

/-- Default used with List.getD; its `optional := true` keeps it inert. -/
def defaultFork : Fork :=
  { name := "", block := none, optional := true }

/-- The errors CheckConfigForkOrder can return: the non-genesis domain error
(`errNonGenesisForkByHeight`) and the two fmt.Errorf ordering errors, carrying
the same data the format strings interpolate. -/
inductive ForkOrderError where
  | nonGenesisForkByHeight : ForkOrderError
  | notEnabled (lastName curName : String) (curBlock : Int) : ForkOrderError
  | orderViolation (lastName : String) (lastBlock : Int) (curName : String)
      (curBlock : Int) : ForkOrderError
  deriving Repr, DecidableEq

/-- `cur.block != nil && common.Big0.Cmp(cur.block) != 0`. -/
def nonGenesisBlock (b : Option Int) : Bool :=
  match b with
  | none => false
  | some v => v != 0

/-- `if !cur.optional || cur.block != nil { lastFork = cur }`. -/
def nextLastFork (lastFork : Option Fork) (cur : Fork) : Option Fork :=
  if !cur.optional || cur.block.isSome then some cur else lastFork

/-- The ordering checks of one loop iteration against the tracked last fork
(`lastFork.name != ""` modelled as the lastFork being present). -/
def forkOrderCheck (lastFork : Option Fork) (cur : Fork) : Option ForkOrderError :=
  match lastFork with
  | none => none
  | some lf =>
    match lf.block, cur.block with
    | none, some cb => some (.notEnabled lf.name cur.name cb)
    | some lb, some cb =>
      if cb < lb then some (.orderViolation lf.name lb cur.name cb) else none
    | _, _ => none

/-- One fork-table loop of CheckConfigForkOrder.  `checkGenesis` is true for
the height-axis loop, which additionally rejects any present non-zero block
before the ordering checks; the timestamp-axis loop omits that test. -/
def forkOrderWalk (checkGenesis : Bool) (lastFork : Option Fork)
    (forks : List Fork) : Option ForkOrderError :=
  match forks with
  | [] => none
  | cur :: rest =>
    if checkGenesis && nonGenesisBlock cur.block then some .nonGenesisForkByHeight
    else
      match forkOrderCheck lastFork cur with
      | some e => some e
      | none => forkOrderWalk checkGenesis (nextLastFork lastFork cur) rest

/-- The height-axis fork table, in the order the Go source lists it. -/
def heightForkList (c : ChainConfig) : List Fork :=
  [{ name := "homesteadBlock", block := c.HomesteadBlock, optional := false },
   { name := "daoForkBlock", block := c.DAOForkBlock, optional := true },
   { name := "eip150Block", block := c.EIP150Block, optional := false },
   { name := "eip155Block", block := c.EIP155Block, optional := false },
   { name := "eip158Block", block := c.EIP158Block, optional := false },
   { name := "byzantiumBlock", block := c.ByzantiumBlock, optional := false },
   { name := "constantinopleBlock", block := c.ConstantinopleBlock, optional := false },
   { name := "petersburgBlock", block := c.PetersburgBlock, optional := false },
   { name := "istanbulBlock", block := c.IstanbulBlock, optional := false },
   { name := "muirGlacierBlock", block := c.MuirGlacierBlock, optional := true }]

/-- The timestamp-axis fork table, in the order the Go source lists it. -/
def tsForkList (c : ChainConfig) : List Fork :=
  [{ name := "apricotPhase1BlockTimestamp", block := c.ApricotPhase1BlockTimestamp, optional := false },
   { name := "apricotPhase2BlockTimestamp", block := c.ApricotPhase2BlockTimestamp, optional := false },
   { name := "apricotPhase3BlockTimestamp", block := c.ApricotPhase3BlockTimestamp, optional := false },
   { name := "apricotPhase4BlockTimestamp", block := c.ApricotPhase4BlockTimestamp, optional := false }]

/-- CheckConfigForkOrder checks that no forks are skipped: the height-axis
walk (with the genesis-only restriction) runs first, then the timestamp-axis
walk with freshly reset lastFork state. -/
def ChainConfig.CheckConfigForkOrder (c : ChainConfig) : Option ForkOrderError :=
  match forkOrderWalk true none (heightForkList c) with
  | some e => some e
  | none => forkOrderWalk false none (tsForkList c)

theorem forkOrderWalk_cons_check_none {g : Bool} {last : Option Fork} {cur : Fork}
    {rest : List Fork} (h : forkOrderWalk g last (cur :: rest) = none) :
    forkOrderCheck last cur = none := by
  rw [forkOrderWalk] at h
  by_cases hg : (g && nonGenesisBlock cur.block) = true
  · rw [if_pos hg] at h
    exact Option.noConfusion h
  · rw [if_neg hg] at h
    cases hc : forkOrderCheck last cur with
    | some e =>
      simp only [hc] at h
      exact Option.noConfusion h
    | none => rfl

theorem forkOrderWalk_cons_none {g : Bool} {last : Option Fork} {cur : Fork}
    {rest : List Fork} (h : forkOrderWalk g last (cur :: rest) = none) :
    forkOrderWalk g (nextLastFork last cur) rest = none := by
  have hc := forkOrderWalk_cons_check_none h
  rw [forkOrderWalk] at h
  by_cases hg : (g && nonGenesisBlock cur.block) = true
  · rw [if_pos hg] at h
    exact Option.noConfusion h
  · rw [if_neg hg] at h
    simp only [hc] at h
    exact h

theorem forkOrderWalk_cons_genesis {last : Option Fork} {cur : Fork}
    {rest : List Fork} (h : forkOrderWalk true last (cur :: rest) = none) :
    nonGenesisBlock cur.block = false := by
  rw [forkOrderWalk] at h
  by_cases hg : (true && nonGenesisBlock cur.block) = true
  · rw [if_pos hg] at h
    exact Option.noConfusion h
  · simpa using hg

/-- Once the tracked last fork is present but unscheduled, an accepted suffix
has every fork unscheduled. -/
theorem forkOrderWalk_none_all_none (g : Bool) :
    ∀ (l : List Fork) (lf : Fork), lf.block = none →
      forkOrderWalk g (some lf) l = none → ∀ f ∈ l, f.block = none := by
  intro l
  induction l with
  | nil =>
    intro lf _ _ f hf
    exact absurd hf (List.not_mem_nil f)
  | cons cur rest ih =>
    intro lf hlf h f hf
    have hcheck := forkOrderWalk_cons_check_none h
    have hstep := forkOrderWalk_cons_none h
    have hcur : cur.block = none := by
      cases hcb : cur.block with
      | none => rfl
      | some cb =>
        simp [forkOrderCheck, hlf, hcb] at hcheck
    rcases List.mem_cons.mp hf with rfl | hf2
    · exact hcur
    · by_cases hopt : cur.optional
      · have hnl : nextLastFork (some lf) cur = some lf := by
          simp [nextLastFork, hopt, hcur]
        rw [hnl] at hstep
        exact ih lf hlf hstep f hf2
      · have hnl : nextLastFork (some lf) cur = some cur := by
          simp [nextLastFork, hopt]
        rw [hnl] at hstep
        exact ih cur hcur hstep f hf2

/-- Once the tracked last fork is scheduled at la, every scheduled fork in an
accepted suffix is scheduled at la or later. -/
theorem forkOrderWalk_none_mono (g : Bool) :
    ∀ (l : List Fork) (lf : Fork) (la : Int), lf.block = some la →
      forkOrderWalk g (some lf) l = none →
      ∀ f ∈ l, ∀ b : Int, f.block = some b → la ≤ b := by
  intro l
  induction l with
  | nil =>
    intro lf la _ _ f hf
    exact absurd hf (List.not_mem_nil f)
  | cons cur rest ih =>
    intro lf la hla h f hf b hfb
    have hcheck := forkOrderWalk_cons_check_none h
    have hstep := forkOrderWalk_cons_none h
    rcases List.mem_cons.mp hf with rfl | hf2
    · have hnlt : ¬ b < la := by
        intro hlt
        simp [forkOrderCheck, hla, hfb, hlt] at hcheck
      omega
    · cases hcb : cur.block with
      | some cb =>
        have hnlt : ¬ cb < la := by
          intro hlt
          simp [forkOrderCheck, hla, hcb, hlt] at hcheck
        have hnl : nextLastFork (some lf) cur = some cur := by
          simp [nextLastFork, hcb]
        rw [hnl] at hstep
        have := ih cur cb hcb hstep f hf2 b hfb
        omega
      | none =>
        by_cases hopt : cur.optional
        · have hnl : nextLastFork (some lf) cur = some lf := by
            simp [nextLastFork, hopt, hcb]
          rw [hnl] at hstep
          exact ih lf la hla hstep f hf2 b hfb
        · have hnl : nextLastFork (some lf) cur = some cur := by
            simp [nextLastFork, hopt]
          rw [hnl] at hstep
          have hall := forkOrderWalk_none_all_none g rest cur hcb hstep f hf2
          rw [hall] at hfb
          exact Option.noConfusion hfb

/-- In an accepted fork table, a scheduled fork after a non-optional fork
forces the earlier fork to be scheduled no later. -/
theorem forkOrderWalk_none_pairs (g : Bool) :
    ∀ (l : List Fork) (last : Option Fork), forkOrderWalk g last l = none →
      ∀ i j : Nat, i < j → j < l.length →
        (l.getD i defaultFork).optional = false →
        ∀ b : Int, (l.getD j defaultFork).block = some b →
          ∃ a : Int, (l.getD i defaultFork).block = some a ∧ a ≤ b := by
  intro l
  induction l with
  | nil =>
    intro last _ i j _ hj
    exact absurd hj (by simp)
  | cons cur rest ih =>
    intro last h i j hij hj hopt b hjb
    have hstep := forkOrderWalk_cons_none h
    cases i with
    | zero =>
      obtain ⟨j', rfl⟩ : ∃ k, j = k + 1 := ⟨j - 1, by omega⟩
      rw [List.getD_cons_zero] at hopt ⊢
      rw [List.getD_cons_succ] at hjb
      have hjl : j' < rest.length := by
        simp only [List.length_cons] at hj
        omega
      have hjmem : rest.getD j' defaultFork ∈ rest := by
        rw [List.getD_eq_getElem rest defaultFork hjl]
        exact List.getElem_mem hjl
      have hnl : nextLastFork last cur = some cur := by
        simp [nextLastFork, hopt]
      rw [hnl] at hstep
      cases hcb : cur.block with
      | none =>
        have := forkOrderWalk_none_all_none g rest cur hcb hstep _ hjmem
        rw [this] at hjb
        exact Option.noConfusion hjb
      | some a =>
        exact ⟨a, rfl, forkOrderWalk_none_mono g rest cur a hcb hstep _ hjmem b hjb⟩
    | succ i' =>
      obtain ⟨j', rfl⟩ : ∃ k, j = k + 1 := ⟨j - 1, by omega⟩
      rw [List.getD_cons_succ] at hopt hjb ⊢
      have hjl : j' < rest.length := by
        simp only [List.length_cons] at hj
        omega
      exact ih (nextLastFork last cur) hstep i' j' (by omega) hjl hopt b hjb

/-- In an accepted height-axis table every scheduled block is zero. -/
theorem forkOrderWalk_true_none_genesis :
    ∀ (l : List Fork) (last : Option Fork), forkOrderWalk true last l = none →
      ∀ f ∈ l, ∀ v : Int, f.block = some v → v = 0 := by
  intro l
  induction l with
  | nil =>
    intro last _ f hf
    exact absurd hf (List.not_mem_nil f)
  | cons cur rest ih =>
    intro last h f hf v hfv
    rcases List.mem_cons.mp hf with rfl | hf2
    · have hg := forkOrderWalk_cons_genesis h
      rw [hfv] at hg
      simpa [nonGenesisBlock] using hg
    · exact ih (nextLastFork last cur) (forkOrderWalk_cons_none h) f hf2 v hfv

theorem CheckConfigForkOrder_none_split (c : ChainConfig)
    (h : c.CheckConfigForkOrder = none) :
    forkOrderWalk true none (heightForkList c) = none ∧
    forkOrderWalk false none (tsForkList c) = none := by
  unfold ChainConfig.CheckConfigForkOrder at h
  cases hh : forkOrderWalk true none (heightForkList c) with
  | some e =>
    simp only [hh] at h
    exact Option.noConfusion h
  | none =>
    simp only [hh] at h
    exact ⟨rfl, h⟩

/-- The all-genesis schedule with the optional DAO fork left unset; it is
accepted by CheckConfigForkOrder. -/
def daoUnsetConfig : ChainConfig :=
  { allZeroConfig with DAOForkBlock := none }

/-- C2 counterexample: the claimed ordering invariant fails for optional
forks: daoUnsetConfig is accepted, EIP150 (index 2) is active at 0, but the
earlier DAO fork (index 1) is not active there. -/
theorem c2_counterexample :
    ¬ (∀ c : ChainConfig, c.CheckConfigForkOrder = none →
        ∀ i j : Nat, i < j → j < 10 →
          ∀ x : Int,
            isForked ((heightForkList c).getD j defaultFork).block (some x) = true →
            isForked ((heightForkList c).getD i defaultFork).block (some x) = true) := by
  intro hcl
  have hbad := hcl daoUnsetConfig (by decide) 1 2 (by norm_num) (by norm_num) 0 (by decide)
  exact absurd hbad (by decide)

/-- C2 amended: in a ChainConfig accepted by CheckConfigForkOrder, for every
pair of forks A before B on the same axis with A not optional (DAO and Muir
Glacier being the optional ones), whenever B is active at a reference point so
is A; on the timestamp axis no fork is optional, so the invariant holds for
every pair. -/
theorem c2_theorem (c : ChainConfig) (hacc : c.CheckConfigForkOrder = none) :
    (∀ i j : Nat, i < j → j < 10 →
      ((heightForkList c).getD i defaultFork).optional = false →
      ∀ x : Int,
        isForked ((heightForkList c).getD j defaultFork).block (some x) = true →
        isForked ((heightForkList c).getD i defaultFork).block (some x) = true) ∧
    (∀ i j : Nat, i < j → j < 4 →
      ∀ x : Int,
        isForked ((tsForkList c).getD j defaultFork).block (some x) = true →
        isForked ((tsForkList c).getD i defaultFork).block (some x) = true) := by
  obtain ⟨hh, ht⟩ := CheckConfigForkOrder_none_split c hacc
  constructor
  · intro i j hij hj hopt x hB
    cases hjb : ((heightForkList c).getD j defaultFork).block with
    | none =>
      rw [hjb] at hB
      exact absurd hB (by simp [isForked])
    | some b =>
      rw [hjb] at hB
      have hbx : b ≤ x := by simpa [isForked] using hB
      have hlen : j < (heightForkList c).length := hj
      obtain ⟨a, ha, hab⟩ :=
        forkOrderWalk_none_pairs true (heightForkList c) none hh i j hij hlen hopt b hjb
      rw [ha]
      simp only [isForked, decide_eq_true_eq]
      omega
  · intro i j hij hj x hB
    have hopt : ((tsForkList c).getD i defaultFork).optional = false := by
      have hi3 : i < 3 := by omega
      interval_cases i <;> rfl
    cases hjb : ((tsForkList c).getD j defaultFork).block with
    | none =>
      rw [hjb] at hB
      exact absurd hB (by simp [isForked])
    | some b =>
      rw [hjb] at hB
      have hbx : b ≤ x := by simpa [isForked] using hB
      have hlen : j < (tsForkList c).length := hj
      obtain ⟨a, ha, hab⟩ :=
        forkOrderWalk_none_pairs false (tsForkList c) none ht i j hij hlen hopt b hjb
      rw [ha]
      simp only [isForked, decide_eq_true_eq]
      omega

/-- C2 witness: on the accepted all-genesis schedule, Homestead (index 0,
non-optional) is active at 0 because EIP150 (index 2) is. -/
theorem c2_witness :
    isForked ((heightForkList allZeroConfig).getD 0 defaultFork).block (some 0) = true :=
  (c2_theorem allZeroConfig (by decide)).1 0 2 (by norm_num) (by norm_num) rfl 0 (by decide)

/-- A schedule whose EIP155 fork sits at the non-genesis height 7, behind an
ordering violation (Homestead unset while EIP150 is set). -/
def orderViolationConfig : ChainConfig :=
  { allZeroConfig with HomesteadBlock := none, DAOForkBlock := none, EIP155Block := some 7 }

/-- C8 counterexample: orderViolationConfig has the height-axis fork EIP155
present at 7 but CheckConfigForkOrder reports the homestead/eip150 ordering
violation, not the non-genesis-fork domain error. -/
theorem c8_counterexample :
    ¬ (∀ c : ChainConfig, ∀ f ∈ heightForkList c, ∀ v : Int,
        f.block = some v → v ≠ 0 →
        c.CheckConfigForkOrder = some ForkOrderError.nonGenesisForkByHeight) := by
  intro hcl
  have hbad := hcl orderViolationConfig
    { name := "eip155Block", block := some 7, optional := false } (by decide) 7 rfl (by norm_num)
  exact absurd hbad (by decide)

/-- The all-genesis schedule carrying four arbitrary Apricot timestamps. -/
def apricotConfig (t1 t2 t3 t4 : Int) : ChainConfig :=
  { allZeroConfig with
      ApricotPhase1BlockTimestamp := some t1
      ApricotPhase2BlockTimestamp := some t2
      ApricotPhase3BlockTimestamp := some t3
      ApricotPhase4BlockTimestamp := some t4 }

/-- C8 amended: any ChainConfig with a height-axis fork present at a non-zero
value is rejected by CheckConfigForkOrder (though possibly with an ordering
error on an earlier fork rather than the non-genesis error), while
timestamp-axis forks may hold any values consistent with their ordering. -/
theorem c8_theorem :
    (∀ c : ChainConfig, ∀ f ∈ heightForkList c, ∀ v : Int,
      f.block = some v → v ≠ 0 → c.CheckConfigForkOrder ≠ none) ∧
    (∀ t1 t2 t3 t4 : Int, t1 ≤ t2 → t2 ≤ t3 → t3 ≤ t4 →
      ChainConfig.CheckConfigForkOrder (apricotConfig t1 t2 t3 t4) = none) := by
  constructor
  · intro c f hf v hfv hv0 hnone
    obtain ⟨hh, _⟩ := CheckConfigForkOrder_none_split c hnone
    exact hv0 (forkOrderWalk_true_none_genesis (heightForkList c) none hh f hf v hfv)
  · intro t1 t2 t3 t4 h12 h23 h34
    have e1 : ¬ t2 < t1 := not_lt.mpr h12
    have e2 : ¬ t3 < t2 := not_lt.mpr h23
    have e3 : ¬ t4 < t3 := not_lt.mpr h34
    have hh : forkOrderWalk true none (heightForkList (apricotConfig t1 t2 t3 t4)) = none := rfl
    unfold ChainConfig.CheckConfigForkOrder
    rw [hh]
    show forkOrderWalk false none (tsForkList (apricotConfig t1 t2 t3 t4)) = none
    simp [forkOrderWalk, forkOrderCheck, nextLastFork, nonGenesisBlock, tsForkList,
      apricotConfig, allZeroConfig, e1, e2, e3]

/-- C8 witness: the non-genesis EIP155 schedule is rejected, and the
all-genesis schedule with ordered timestamps 1,2,3,4 is accepted. -/
theorem c8_witness :
    ChainConfig.CheckConfigForkOrder orderViolationConfig ≠ none ∧
    ChainConfig.CheckConfigForkOrder (apricotConfig 1 2 3 4) = none :=
  ⟨c8_theorem.1 orderViolationConfig
      { name := "eip155Block", block := some 7, optional := false } (by decide) 7 rfl (by norm_num),
   c8_theorem.2 1 2 3 4 (by norm_num) (by norm_num) (by norm_num)⟩
